import Mathlib

/-!
Verification of the storage SCP session loop of `movescu` (`src/movescu/src/store_async.rs`).

The loop state (`instance_buffer`, `msgid`, `sop_class_uid`, `sop_instance_uid`),
the per-PDV dispatch of `run_store_async`, the C-STORE response builder
`create_cstore_response`, and the PDU session loop are embedded as executable
Lean functions.  External collaborators (the association layer, the DICOM
data-set decoder `InMemDicomObject::read_dataset_with_ts`, the transfer-syntax
registry, and the file system) are supplied through an explicit environment.
-/

namespace StoreAsync

/-- Raw payload bytes of a PDV fragment (Rust `Vec<u8>`), one natural per byte. -/
abbrev Bytes := List Nat

/-- Mirror of `dicom_ul::pdu::PDataValueType`: the kind of a presentation data value. -/
inductive PDataValueType
  | command
  | data
deriving DecidableEq

/-- Mirror of `dicom_ul::pdu::PDataValue`: one fragment inside a P-DATA PDU. -/
structure PDataValue where
  presentation_context_id : Nat
  value_type : PDataValueType
  is_last : Bool
  data : Bytes
deriving DecidableEq

/-- An accepted presentation context from the negotiated table
(`association.presentation_contexts()`): its identifier and the UID of the
negotiated transfer syntax. -/
structure PresentationContext where
  id : Nat
  transfer_syntax : String
deriving DecidableEq

/-- UID of the Implicit VR Little Endian transfer syntax,
`dicom_transfer_syntax_registry::entries::IMPLICIT_VR_LITTLE_ENDIAN`. -/
def IMPLICIT_VR_LITTLE_ENDIAN : String := "1.2.840.10008.1.2"

/-- Modelled from the spec: the projection of a decoded DICOM structured object
(`InMemDicomObject`, an ordered tag-to-value mapping provided by the
`dicom_object` crate, which is outside `src/`) onto the six elements this program
reads.  `none` means the element is absent or its value cannot be converted to
the requested type (element lookup and value conversion failures are merged;
each is fatal in the same way in the source). -/
structure InMemDicomObject where
  command_field : Option Nat
  message_id : Option Nat
  affected_sop_class_uid : Option String
  affected_sop_instance_uid : Option String
  sop_class_uid : Option String
  sop_instance_uid : Option String
deriving DecidableEq

/-- Modelled from the spec: the file meta header built by `FileMetaTableBuilder`
(media-storage class identifier, media-storage instance identifier, transfer
syntax).  With all three fields supplied, as they are at the single build site,
the builder succeeds. -/
structure FileMetaTable where
  media_storage_sop_class_uid : String
  media_storage_sop_instance_uid : String
  transfer_syntax : String
deriving DecidableEq

/-- A self-describing file representation: meta header plus the decoded object
(`obj.with_exact_meta(file_meta)`). -/
structure FileDicomObject where
  meta : FileMetaTable
  obj : InMemDicomObject
deriving DecidableEq

/-- The C-STORE response command set built by `create_cstore_response`,
one field per data element, in element order. -/
structure CStoreResponse where
  affected_sop_class_uid : String
  command_field : Nat
  message_id_being_responded_to : Nat
  command_data_set_type : Nat
  status : Nat
  affected_sop_instance_uid : String
deriving DecidableEq

/-- Mirror of `create_cstore_response`: affected class UID echoed, command field
0x8001 (C-STORE-RSP), message identifier being responded to, command data set
type 0x0101 (no data set follows), status 0x0000 (success), affected instance
UID echoed. -/
def create_cstore_response (message_id : Nat) (sop_class_uid : String)
    (sop_instance_uid : String) : CStoreResponse :=
  ⟨sop_class_uid, 0x8001, message_id, 0x0101, 0x0000, sop_instance_uid⟩

/-- Rust `str::trim_end_matches` specialised to the NUL padding character, as
used when building the output filename. -/
def trimEndNul (s : String) : String :=
  String.mk (((s.data.reverse).dropWhile (fun c => c = Char.ofNat 0)).reverse)

/-- A fatal end of processing: `error` is an error propagated upward with `?`
(carrying its `whatever_context` message), `panicked` is a Rust panic
(`unwrap` on `None`). -/
inductive Fatal
  | error (msg : String)
  | panicked (msg : String)
deriving DecidableEq

/-- Discriminator for the panic variant of `Fatal`. -/
def Fatal.isPanic : Fatal → Bool
  | .panicked _ => true
  | .error _ => false

/-- Observable side effects of the loop, in order of occurrence: writing the
received object to its destination path, attempting the C-STORE response send
(on the given presentation context), and attempting the release-response send
(recording whether that best-effort send succeeded). -/
inductive Output
  | storeFile (path : String) (file_obj : FileDicomObject)
  | sendResponse (presentation_context_id : Nat) (resp : CStoreResponse)
  | sendReleaseRP (ok : Bool)
deriving DecidableEq

/-- The mutable loop-scoped state of `run_store_async`: the reassembly buffer
`instance_buffer` and the pending request fields `msgid`, `sop_class_uid` and
`sop_instance_uid`. -/
structure SessionState where
  instance_buffer : Bytes
  msgid : Nat
  sop_class_uid : String
  sop_instance_uid : String
deriving DecidableEq

/-- The initial loop state: empty buffer, `msgid = 1`, empty identifiers. -/
def initialState : SessionState := ⟨[], 1, "", ""⟩

/-- The external collaborators of the loop: the negotiated presentation-context
table, the set of UIDs known to `TransferSyntaxRegistry`, the data-set decoder
(keyed by transfer-syntax UID; `none` is a decode failure), the configured
output directory, and the outcomes of the fallible I/O operations (file write
keyed by destination path, response send). -/
structure Env where
  presentation_contexts : List PresentationContext
  registry : List String
  read_dataset_with_ts : String → Bytes → Option InMemDicomObject
  out_dir : String
  write_ok : String → Bool
  send_ok : Bool

/-- One iteration of the `for data_value in data` dispatch of `run_store_async`:
given one PDV, produce the side effects, the successor state, and `none` on
success or the fatal outcome otherwise.  The branch structure mirrors the
source's if-chain: (1) non-terminal Data fragments are appended to the buffer;
(2) a terminal Command PDV is decoded from its own payload with the
implicit-little-endian convention, the pending request fields are extracted and
the buffer is cleared; (3) a terminal Data PDV completes the buffer, the
negotiated transfer syntax is looked up (a registry miss panics on `unwrap`),
the buffer is decoded, the file meta is built from the object's own
identifiers, the file is written under the trimmed pending instance identifier,
and the C-STORE response is sent; (4) anything else (a non-terminal Command
fragment) falls through with no effect. -/
def processPDV (env : Env) (st : SessionState) (dv : PDataValue) :
    List Output × SessionState × Option Fatal :=
  if dv.value_type = PDataValueType.data ∧ dv.is_last = false then
    ([], { st with instance_buffer := st.instance_buffer ++ dv.data }, none)
  else if dv.value_type = PDataValueType.command ∧ dv.is_last = true then
    match env.read_dataset_with_ts IMPLICIT_VR_LITTLE_ENDIAN dv.data with
    | none => ([], st, some (Fatal.error "failed to read incoming DICOM command"))
    | some obj =>
      match obj.command_field with
      | none => ([], st, some (Fatal.error "Missing Command Field"))
      | some _ =>
        match obj.message_id with
        | none => ([], st, some (Fatal.error "Missing Message ID"))
        | some mid =>
          match obj.affected_sop_class_uid with
          | none => ([], { st with msgid := mid },
              some (Fatal.error "missing Affected SOP Class UID"))
          | some cls =>
            match obj.affected_sop_instance_uid with
            | none => ([], { st with msgid := mid, sop_class_uid := cls },
                some (Fatal.error "missing Affected SOP Instance UID"))
            | some inst => ([], ⟨[], mid, cls, inst⟩, none)
  else if dv.value_type = PDataValueType.data ∧ dv.is_last = true then
    let buf := st.instance_buffer ++ dv.data
    let st1 : SessionState := { st with instance_buffer := buf }
    match env.presentation_contexts.find? (fun pc => pc.id = dv.presentation_context_id) with
    | none => ([], st1, some (Fatal.error "missing presentation context"))
    | some pc =>
      let ts := PresentationContext.transfer_syntax pc
      if env.registry.contains ts = false then
        ([], st1, some (Fatal.panicked "TransferSyntaxRegistry.get returned None"))
      else
        match env.read_dataset_with_ts ts buf with
        | none => ([], st1, some (Fatal.error "failed to read DICOM data object"))
        | some obj =>
          match obj.sop_class_uid with
          | none => ([], st1, some (Fatal.error "missing SOP Class UID"))
          | some cls =>
            match obj.sop_instance_uid with
            | none => ([], st1, some (Fatal.error "missing SOP Instance UID"))
            | some inst =>
              let file_obj : FileDicomObject := ⟨⟨cls, inst, ts⟩, obj⟩
              let file_path := env.out_dir ++ "/" ++ (trimEndNul st.sop_instance_uid ++ ".dcm")
              if env.write_ok file_path = false then
                ([], st1, some (Fatal.error "could not save DICOM object to file"))
              else
                let resp := create_cstore_response st.msgid st.sop_class_uid st.sop_instance_uid
                if env.send_ok then
                  ([Output.storeFile file_path file_obj,
                    Output.sendResponse dv.presentation_context_id resp], st1, none)
                else
                  ([Output.storeFile file_path file_obj,
                    Output.sendResponse dv.presentation_context_id resp], st1,
                    some (Fatal.error "failed to send response object to SCU"))
  else ([], st, none)

/-- The `for data_value in data` loop over the PDVs of one P-DATA PDU, in array
order, stopping at the first fatal outcome (the `?` operator exits the whole
function). -/
def processPDVs (env : Env) (st : SessionState) :
    List PDataValue → List Output × SessionState × Option Fatal
  | [] => ([], st, none)
  | dv :: rest =>
    match processPDV env st dv with
    | (outs, st1, none) =>
      match processPDVs env st1 rest with
      | (outs2, st2, r) => (outs ++ outs2, st2, r)
    | (outs, st1, some f) => (outs, st1, some f)

/-- Mirror of `dicom_ul::Pdu` restricted to the variants the loop distinguishes;
`other` stands for every administrative PDU caught by the wildcard arm. -/
inductive Pdu
  | pData (data : List PDataValue)
  | releaseRQ
  | releaseRP
  | abortRQ (source : Nat)
  | other
deriving DecidableEq

/-- One result of `association.receive()`: a PDU, or a receive error (which
breaks the loop). -/
inductive RecvEvent
  | pdu (p : Pdu)
  | recvError
deriving DecidableEq

/-- How the session loop ended: release request handled, abort received, fatal
processing error propagated with `?`, receive error, or the finite input trace
ran out (the model's cutoff for a loop still blocked on `receive()`). -/
inductive LoopEnd
  | released
  | aborted
  | fatal (f : Fatal)
  | recvFailed
  | outOfInput
deriving DecidableEq

/-- The session loop of `run_store_async` over a finite trace of receive
results.  An empty P-DATA PDU is skipped; the PDVs of a non-empty one are
dispatched in order, a fatal outcome ending the run at once; a release request
records one best-effort release-response send attempt (`release_send_ok` is its
outcome, which is only logged) and ends the loop; an abort ends the loop with
no reply; `ReleaseRP` and other PDUs are ignored; a receive error ends the
loop. -/
def runLoop (env : Env) (release_send_ok : Bool) (st : SessionState) :
    List RecvEvent → List Output × SessionState × LoopEnd
  | [] => ([], st, LoopEnd.outOfInput)
  | RecvEvent.recvError :: _ => ([], st, LoopEnd.recvFailed)
  | RecvEvent.pdu p :: rest =>
    match p with
    | Pdu.pData dvs =>
      if dvs.isEmpty then runLoop env release_send_ok st rest
      else
        match processPDVs env st dvs with
        | (outs, st1, none) =>
          match runLoop env release_send_ok st1 rest with
          | (outs2, st2, e) => (outs ++ outs2, st2, e)
        | (outs, st1, some f) => (outs, st1, LoopEnd.fatal f)
    | Pdu.releaseRQ => ([Output.sendReleaseRP release_send_ok], st, LoopEnd.released)
    | Pdu.releaseRP => runLoop env release_send_ok st rest
    | Pdu.abortRQ _ => ([], st, LoopEnd.aborted)
    | Pdu.other => runLoop env release_send_ok st rest

/-- The value `run_store_async` returns to its caller once the loop has ended:
a fatal processing error is propagated as `Err`; release, abort and
receive-error teardown all return `Ok(true)` after the teardown logging. -/
def sessionResult : LoopEnd → Except Fatal Bool
  | LoopEnd.fatal f => Except.error f
  | _ => Except.ok true

/-- Wrap byte chunks as Data-kind PDVs of one data unit on one presentation
context: every fragment non-terminal except the last. -/
def fragmentPdvs (pcid : Nat) : List Bytes → List PDataValue
  | [] => []
  | [b] => [⟨pcid, PDataValueType.data, true, b⟩]
  | b :: c :: rest =>
    ⟨pcid, PDataValueType.data, false, b⟩ :: fragmentPdvs pcid (c :: rest)

/-- Whether an output is a release-response send attempt. -/
def isReleaseOut : Output → Bool
  | Output.sendReleaseRP _ => true
  | _ => false

/-- Number of release-response send attempts among the outputs. -/
def countReleaseRP (outs : List Output) : Nat :=
  outs.countP isReleaseOut

/-! Concrete instances used to exercise the definitions: a small negotiated
environment mirroring the concrete scenario of the specification (command unit
with MessageID 7, affected class "1.2.840.10008.5.1.4.1.1.2", affected
instance "1.2.3.4.5\x00", then one terminal data fragment). -/

/-- UID of the Explicit VR Little Endian transfer syntax, used as the
negotiated transfer syntax of presentation context 1 in the examples. -/
def tsA : String := "1.2.840.10008.1.2.1"

/-- The decoded command set of the concrete scenario: command field 1
(C-STORE-RQ), MessageID 7, affected class and instance identifiers, the
instance identifier carrying its NUL padding. -/
def cmdObjEx : InMemDicomObject :=
  ⟨some 1, some 7, some "1.2.840.10008.5.1.4.1.1.2", some "1.2.3.4.5\x00", none, none⟩

/-- The decoded data set of the concrete scenario; its own SOP Instance UID
"9.9.9" deliberately differs from the request's affected instance
identifier. -/
def dataObjEx : InMemDicomObject :=
  ⟨none, none, none, none, some "1.2.840.10008.5.1.4.1.1.2", some "9.9.9"⟩

/-- A decoded command set lacking the required command-field element. -/
def objNoCf : InMemDicomObject :=
  ⟨none, some 7, some "a", some "b", none, none⟩

/-- The example environment: presentation context 1 negotiated with `tsA`,
both example transfer syntaxes registered, a decoder recognising the payloads
`[0]` (command), `[1, 2]` and `[1, 2, 3]` (data) and `[3]` (command missing
its command field), and I/O that always succeeds. -/
def envEx : Env where
  presentation_contexts := [⟨1, tsA⟩]
  registry := [IMPLICIT_VR_LITTLE_ENDIAN, tsA]
  read_dataset_with_ts := fun ts bytes =>
    if ts = IMPLICIT_VR_LITTLE_ENDIAN ∧ bytes = [0] then some cmdObjEx
    else if ts = tsA ∧ (bytes = [1, 2] ∨ bytes = [1, 2, 3]) then some dataObjEx
    else if ts = IMPLICIT_VR_LITTLE_ENDIAN ∧ bytes = [3] then some objNoCf
    else none
  out_dir := "out"
  write_ok := fun _ => true
  send_ok := true

/-- The terminal Command PDV of the concrete scenario. -/
def dvCmdEx : PDataValue := ⟨1, PDataValueType.command, true, [0]⟩

/-- The terminal Data PDV of the concrete scenario. -/
def dvDataEx : PDataValue := ⟨1, PDataValueType.data, true, [1, 2]⟩

/-- The session state after the scenario's command unit has been consumed. -/
def stEx : SessionState := ⟨[], 7, "1.2.840.10008.5.1.4.1.1.2", "1.2.3.4.5\x00"⟩

/-- The session state after the scenario's data unit has been consumed: the
buffer retains the data bytes. -/
def stExAfter : SessionState := ⟨[1, 2], 7, "1.2.840.10008.5.1.4.1.1.2", "1.2.3.4.5\x00"⟩

/-- The outputs of the scenario's data unit: the file stored under the trimmed
request identifier, then the response echoing the untrimmed identifier. -/
def outsEx : List Output :=
  [Output.storeFile "out/1.2.3.4.5.dcm"
     ⟨⟨"1.2.840.10008.5.1.4.1.1.2", "9.9.9", tsA⟩, dataObjEx⟩,
   Output.sendResponse 1 (create_cstore_response 7 "1.2.840.10008.5.1.4.1.1.2" "1.2.3.4.5\x00")]

/-- A terminal Command PDV whose payload the example decoder rejects. -/
def dvBadCmd : PDataValue := ⟨1, PDataValueType.command, true, [9]⟩

/-- A terminal Data PDV on a presentation-context identifier absent from the
example table. -/
def dvNoPc : PDataValue := ⟨2, PDataValueType.data, true, [9]⟩

/-- A terminal Data PDV whose reassembled bytes the example decoder rejects. -/
def dvBadData : PDataValue := ⟨1, PDataValueType.data, true, [9]⟩

/-- A terminal Command PDV decoding to a command set without a command field. -/
def dvNoCf : PDataValue := ⟨1, PDataValueType.command, true, [3]⟩

/-- The outputs of a data unit stored from the initial state: filed under the
empty pending identifier, acknowledged with the initial request fields. -/
def outs9 : List Output :=
  [Output.storeFile "out/.dcm" ⟨⟨"1.2.840.10008.5.1.4.1.1.2", "9.9.9", tsA⟩, dataObjEx⟩,
   Output.sendResponse 1 (create_cstore_response 1 "" "")]

/-- The session state after a data unit is consumed from the initial state. -/
def st9 : SessionState := ⟨[1, 2], 1, "", ""⟩

/-! Helper lemmas shared by the claim theorems. -/

/-- Shape of a successful terminal-Command dispatch: decoding the PDV's own
payload with the implicit-little-endian convention and finding all four
required elements yields the new pending request state with a cleared buffer,
for every prior state. -/
theorem processPDV_command_success (env : Env) (st : SessionState) (dv : PDataValue)
    (obj : InMemDicomObject) (cf mid : Nat) (cls inst : String)
    (hk : dv.value_type = PDataValueType.command) (hl : dv.is_last = true)
    (hdec : env.read_dataset_with_ts IMPLICIT_VR_LITTLE_ENDIAN dv.data = some obj)
    (hcf : obj.command_field = some cf) (hmid : obj.message_id = some mid)
    (hcls : obj.affected_sop_class_uid = some cls)
    (hinst : obj.affected_sop_instance_uid = some inst) :
    processPDV env st dv = ([], ⟨[], mid, cls, inst⟩, none) := by
  simp [processPDV, hk, hl, hdec, hcf, hmid, hcls, hinst]

/-- Shape of a successful terminal-Data dispatch: the outputs are exactly one
file write at the path derived from the pending instance identifier followed by
one response send echoing the pending request fields, and the successor state
keeps the reassembled bytes in the buffer. -/
theorem processPDV_data_success (env : Env) (st : SessionState) (dv : PDataValue)
    (outs : List Output) (st1 : SessionState)
    (hk : dv.value_type = PDataValueType.data) (hl : dv.is_last = true)
    (h : processPDV env st dv = (outs, st1, none)) :
    ∃ fobj : FileDicomObject,
      outs = [Output.storeFile
                (env.out_dir ++ "/" ++ (trimEndNul st.sop_instance_uid ++ ".dcm")) fobj,
              Output.sendResponse dv.presentation_context_id
                (create_cstore_response st.msgid st.sop_class_uid st.sop_instance_uid)] ∧
      st1 = { st with instance_buffer := st.instance_buffer ++ dv.data } := by
  simp only [processPDV, hk, hl] at h
  simp only [reduceCtorEq, and_false, false_and, and_true, and_self, reduceIte] at h
  split at h <;> try simp_all
  split at h <;> try simp_all
  split at h <;> try simp_all
  split at h <;> try simp_all
  split at h <;> try simp_all
  split at h <;> try simp_all
  split at h <;> try simp_all
  exact ⟨_, h.1.symm⟩

/-- Processing a one-element PDV list is processing that single PDV. -/
theorem processPDVs_singleton (env : Env) (st : SessionState) (dv : PDataValue) :
    processPDVs env st [dv] =
      ((processPDV env st dv).1, (processPDV env st dv).2.1, (processPDV env st dv).2.2) := by
  rcases h : processPDV env st dv with ⟨outs, st1, r⟩
  cases r <;> simp [processPDVs, h]

/-- Bytes already shifted into the buffer and bytes still in a terminal Data
PDV's payload are interchangeable: only their concatenation matters. -/
theorem processPDV_shift (env : Env) (st : SessionState) (pcid : Nat) (b d : Bytes) :
    processPDV env { st with instance_buffer := st.instance_buffer ++ b }
        ⟨pcid, PDataValueType.data, true, d⟩ =
      processPDV env st ⟨pcid, PDataValueType.data, true, b ++ d⟩ := by
  simp [processPDV, List.append_assoc]

/-- Processing the fragment sequence of a data unit equals processing the unit
as one terminal fragment, for every starting state. -/
theorem fragment_processing_eq (env : Env) (pcid : Nat) :
    ∀ (chunks : List Bytes) (st : SessionState), chunks ≠ [] →
    processPDVs env st (fragmentPdvs pcid chunks) =
      processPDV env st ⟨pcid, PDataValueType.data, true, chunks.flatten⟩
  | [], _, h => absurd rfl h
  | [b], st, _ => by
    simp [fragmentPdvs, processPDVs_singleton, List.flatten]
  | b :: c :: rest, st, _ => by
    have ih := fragment_processing_eq env pcid (c :: rest)
      { st with instance_buffer := st.instance_buffer ++ b } (by simp)
    calc processPDVs env st (fragmentPdvs pcid (b :: c :: rest))
        = processPDVs env { st with instance_buffer := st.instance_buffer ++ b }
            (fragmentPdvs pcid (c :: rest)) := by
          rcases hP : processPDVs env { st with instance_buffer := st.instance_buffer ++ b }
            (fragmentPdvs pcid (c :: rest)) with ⟨o2, s2, r⟩
          simp [fragmentPdvs, processPDVs, processPDV, hP]
      _ = processPDV env { st with instance_buffer := st.instance_buffer ++ b }
            ⟨pcid, PDataValueType.data, true, (c :: rest).flatten⟩ := ih
      _ = processPDV env st ⟨pcid, PDataValueType.data, true, (b :: c :: rest).flatten⟩ := by
          simpa [List.flatten] using processPDV_shift env st pcid b ((c :: rest).flatten)

/-- One PDV dispatch never attempts a release-response send. -/
theorem countReleaseRP_processPDV (env : Env) (st : SessionState) (dv : PDataValue) :
    countReleaseRP (processPDV env st dv).1 = 0 := by
  simp only [processPDV]
  repeat' split
  all_goals simp [countReleaseRP, isReleaseOut, List.countP_cons, List.countP_nil]

/-- Dispatching the PDVs of one P-DATA PDU never attempts a release-response
send. -/
theorem countReleaseRP_processPDVs (env : Env) :
    ∀ (dvs : List PDataValue) (st : SessionState),
    countReleaseRP (processPDVs env st dvs).1 = 0
  | [], st => by simp [processPDVs, countReleaseRP]
  | dv :: rest, st => by
    rcases h1 : processPDV env st dv with ⟨outs, st1, r⟩
    have h0 : countReleaseRP outs = 0 := by
      have := countReleaseRP_processPDV env st dv
      rw [h1] at this
      simpa using this
    cases r with
    | none =>
      rcases h2 : processPDVs env st1 rest with ⟨o2, s2, r2⟩
      have ih := countReleaseRP_processPDVs env rest st1
      rw [h2] at ih
      simp only [processPDVs, h1, h2]
      simpa [countReleaseRP, List.countP_append] using And.intro h0 ih
    | some f =>
      simp only [processPDVs, h1]
      simpa using h0

/-- The loop attempts a release-response send exactly once when it ends in
`released` and never otherwise. -/
theorem runLoop_count_release (env : Env) (b : Bool) (evs : List RecvEvent) :
    ∀ st, countReleaseRP (runLoop env b st evs).1 =
      if (runLoop env b st evs).2.2 = LoopEnd.released then 1 else 0 := by
  induction evs with
  | nil => intro st; simp [runLoop, countReleaseRP]
  | cons ev rest ih =>
    intro st
    cases ev with
    | recvError => simp [runLoop, countReleaseRP]
    | pdu p =>
      cases p with
      | pData dvs =>
        by_cases he : dvs.isEmpty
        · simpa [runLoop, he] using ih st
        · rcases hP : processPDVs env st dvs with ⟨outs, st1, r⟩
          have h0 : countReleaseRP outs = 0 := by
            have := countReleaseRP_processPDVs env dvs st
            rw [hP] at this
            simpa using this
          cases r with
          | none =>
            rcases hR : runLoop env b st1 rest with ⟨o2, s2, e⟩
            have ih1 := ih st1
            rw [hR] at ih1
            have hgoal : runLoop env b st (RecvEvent.pdu (Pdu.pData dvs) :: rest) =
                (outs ++ o2, s2, e) := by
              simp [runLoop, he, hP, hR]
            rw [hgoal]
            simp only [countReleaseRP, List.countP_append] at h0 ih1 ⊢
            rw [h0, Nat.zero_add]
            exact ih1
          | some f =>
            have hgoal : runLoop env b st (RecvEvent.pdu (Pdu.pData dvs) :: rest) =
                (outs, st1, LoopEnd.fatal f) := by
              simp [runLoop, he, hP]
            rw [hgoal]
            rw [if_neg (by simp : ¬ (LoopEnd.fatal f = LoopEnd.released))]
            exact h0
      | releaseRQ =>
        simp [runLoop, countReleaseRP, isReleaseOut, List.countP_cons, List.countP_nil]
      | releaseRP => simpa [runLoop] using ih st
      | abortRQ s => simp [runLoop, countReleaseRP]
      | other => simpa [runLoop] using ih st

/-- The outcome of the best-effort release-response send is only logged: the
final state and loop end do not depend on it. -/
theorem runLoop_release_ok_irrel (env : Env) (b b2 : Bool) (evs : List RecvEvent) :
    ∀ st, (runLoop env b st evs).2 = (runLoop env b2 st evs).2 := by
  induction evs with
  | nil => intro st; simp [runLoop]
  | cons ev rest ih =>
    intro st
    cases ev with
    | recvError => simp [runLoop]
    | pdu p =>
      cases p with
      | pData dvs =>
        by_cases he : dvs.isEmpty
        · simpa [runLoop, he] using ih st
        · rcases hP : processPDVs env st dvs with ⟨outs, st1, r⟩
          cases r with
          | none =>
            rcases hR : runLoop env b st1 rest with ⟨o2, s2, e⟩
            rcases hR2 : runLoop env b2 st1 rest with ⟨o3, s3, e2⟩
            have ih1 := ih st1
            rw [hR, hR2] at ih1
            have hg1 : runLoop env b st (RecvEvent.pdu (Pdu.pData dvs) :: rest) =
                (outs ++ o2, s2, e) := by
              simp [runLoop, he, hP, hR]
            have hg2 : runLoop env b2 st (RecvEvent.pdu (Pdu.pData dvs) :: rest) =
                (outs ++ o3, s3, e2) := by
              simp [runLoop, he, hP, hR2]
            rw [hg1, hg2]
            simpa using ih1
          | some f =>
            have hg1 : runLoop env b st (RecvEvent.pdu (Pdu.pData dvs) :: rest) =
                (outs, st1, LoopEnd.fatal f) := by
              simp [runLoop, he, hP]
            have hg2 : runLoop env b2 st (RecvEvent.pdu (Pdu.pData dvs) :: rest) =
                (outs, st1, LoopEnd.fatal f) := by
              simp [runLoop, he, hP]
            rw [hg1, hg2]
      | releaseRQ => simp [runLoop]
      | releaseRP => simpa [runLoop] using ih st
      | abortRQ s => simp [runLoop]
      | other => simpa [runLoop] using ih st

/-! Claim theorems. -/

/-- C1: when the most recently completed command unit carried affected instance
identifier `inst` and a terminal Data-kind PDV then completes a data unit
successfully, the persisted file's destination path is the configured output
directory joined with `inst` stripped of trailing NUL padding plus the `.dcm`
extension; the decoded object (and in particular its own SOP Instance UID,
which may differ from `inst`) does not influence the path. -/
theorem c1_filename_derivation (env : Env) (st : SessionState)
    (dvc dvd : PDataValue) (obj : InMemDicomObject) (cf mid : Nat) (cls inst : String)
    (outs : List Output) (st2 : SessionState)
    (hck : dvc.value_type = PDataValueType.command) (hcl : dvc.is_last = true)
    (hdec : env.read_dataset_with_ts IMPLICIT_VR_LITTLE_ENDIAN dvc.data = some obj)
    (hcf : obj.command_field = some cf) (hmid : obj.message_id = some mid)
    (hcls : obj.affected_sop_class_uid = some cls)
    (hinst : obj.affected_sop_instance_uid = some inst)
    (hdk : dvd.value_type = PDataValueType.data) (hdl : dvd.is_last = true)
    (h : processPDVs env st [dvc, dvd] = (outs, st2, none)) :
    ∃ fobj resp, outs =
      [Output.storeFile (env.out_dir ++ "/" ++ (trimEndNul inst ++ ".dcm")) fobj,
       Output.sendResponse dvd.presentation_context_id resp] := by
  have hc := processPDV_command_success env st dvc obj cf mid cls inst
    hck hcl hdec hcf hmid hcls hinst
  simp only [processPDVs, hc, processPDVs_singleton] at h
  rcases hd : processPDV env ⟨[], mid, cls, inst⟩ dvd with ⟨o2, s2, r⟩
  rw [hd] at h
  cases r with
  | some f => simp at h
  | none =>
    simp only [] at h
    obtain ⟨fobj, houts, hst⟩ :=
      processPDV_data_success env ⟨[], mid, cls, inst⟩ dvd o2 s2 hdk hdl hd
    exact ⟨fobj, create_cstore_response mid cls inst, by simp_all⟩

/-- Witness for C1 at the concrete scenario: the request identifier is
"1.2.3.4.5\x00", the stored object's own SOP Instance UID is "9.9.9", and the
file is written at "out/1.2.3.4.5.dcm". -/
theorem c1_filename_derivation_witness :
    ∃ fobj resp, outsEx =
      [Output.storeFile (envEx.out_dir ++ "/" ++ (trimEndNul "1.2.3.4.5\x00" ++ ".dcm")) fobj,
       Output.sendResponse dvDataEx.presentation_context_id resp] :=
  c1_filename_derivation envEx initialState dvCmdEx dvDataEx cmdObjEx 1 7
    "1.2.840.10008.5.1.4.1.1.2" "1.2.3.4.5\x00" outsEx stExAfter
    rfl rfl (by decide) rfl rfl rfl rfl rfl rfl (by decide)

/-- C2 counterexample: in the concrete scenario (MessageID 7, affected instance
identifier "1.2.3.4.5\x00"), the run succeeds and the response sent carries
affected instance identifier "1.2.3.4.5\x00" — not the trimmed "1.2.3.4.5"
stated by the claim. -/
theorem c2_response_echo_cex :
    (processPDVs envEx initialState [dvCmdEx, dvDataEx]).2.2 = none ∧
    (processPDVs envEx initialState [dvCmdEx, dvDataEx]).1 =
      [Output.storeFile "out/1.2.3.4.5.dcm"
         ⟨⟨"1.2.840.10008.5.1.4.1.1.2", "9.9.9", tsA⟩, dataObjEx⟩,
       Output.sendResponse 1
         (create_cstore_response 7 "1.2.840.10008.5.1.4.1.1.2" "1.2.3.4.5\x00")] ∧
    (create_cstore_response 7 "1.2.840.10008.5.1.4.1.1.2"
        "1.2.3.4.5\x00").affected_sop_instance_uid ≠ "1.2.3.4.5" := by
  refine ⟨by decide, by decide, by decide⟩

/-- C2 (amended): for every successfully stored data unit the response command
unit sent back carries the affected class identifier echoed from the request,
command field 0x8001, message-identifier-being-responded-to equal to the
request's message identifier, command-data-set-type 0x0101, status 0x0000, and
the affected instance identifier echoed from the request verbatim — trailing
NUL padding is not stripped, so in the concrete scenario with MessageID 7 and
affected instance identifier "1.2.3.4.5\x00" the response carries
MessageIDBeingRespondedTo 7 and affected instance identifier "1.2.3.4.5\x00"
(wire-equivalent to "1.2.3.4.5" after even-length padding). -/
theorem c2_response_echo (env : Env) (st : SessionState)
    (dvc dvd : PDataValue) (obj : InMemDicomObject) (cf mid : Nat) (cls inst : String)
    (outs : List Output) (st2 : SessionState)
    (hck : dvc.value_type = PDataValueType.command) (hcl : dvc.is_last = true)
    (hdec : env.read_dataset_with_ts IMPLICIT_VR_LITTLE_ENDIAN dvc.data = some obj)
    (hcf : obj.command_field = some cf) (hmid : obj.message_id = some mid)
    (hcls : obj.affected_sop_class_uid = some cls)
    (hinst : obj.affected_sop_instance_uid = some inst)
    (hdk : dvd.value_type = PDataValueType.data) (hdl : dvd.is_last = true)
    (h : processPDVs env st [dvc, dvd] = (outs, st2, none)) :
    (∃ fout, outs = [fout,
      Output.sendResponse dvd.presentation_context_id
        (create_cstore_response mid cls inst)]) ∧
    create_cstore_response mid cls inst = ⟨cls, 0x8001, mid, 0x0101, 0x0000, inst⟩ := by
  have hc := processPDV_command_success env st dvc obj cf mid cls inst
    hck hcl hdec hcf hmid hcls hinst
  simp only [processPDVs, hc, processPDVs_singleton] at h
  rcases hd : processPDV env ⟨[], mid, cls, inst⟩ dvd with ⟨o2, s2, r⟩
  rw [hd] at h
  cases r with
  | some f => simp at h
  | none =>
    obtain ⟨fobj, houts, hst⟩ :=
      processPDV_data_success env ⟨[], mid, cls, inst⟩ dvd o2 s2 hdk hdl hd
    refine ⟨⟨Output.storeFile (env.out_dir ++ "/" ++ (trimEndNul inst ++ ".dcm")) fobj,
      by simp_all⟩, rfl⟩

/-- Witness for the amended C2 at the concrete scenario: MessageID 7 and the
untrimmed affected instance identifier are echoed in the response. -/
theorem c2_response_echo_witness :
    (∃ fout, outsEx = [fout, Output.sendResponse 1
        (create_cstore_response 7 "1.2.840.10008.5.1.4.1.1.2" "1.2.3.4.5\x00")]) ∧
    create_cstore_response 7 "1.2.840.10008.5.1.4.1.1.2" "1.2.3.4.5\x00" =
      ⟨"1.2.840.10008.5.1.4.1.1.2", 0x8001, 7, 0x0101, 0x0000, "1.2.3.4.5\x00"⟩ :=
  c2_response_echo envEx initialState dvCmdEx dvDataEx cmdObjEx 1 7
    "1.2.840.10008.5.1.4.1.1.2" "1.2.3.4.5\x00" outsEx stExAfter
    rfl rfl (by decide) rfl rfl rfl rfl rfl rfl (by decide)

/-- C3 counterexample: consuming a complete (terminal) data unit succeeds, yet
the reassembly buffer afterwards is not empty — the source clears the buffer
only in the command branch. -/
theorem c3_buffer_cleared_cex :
    (processPDV envEx stEx dvDataEx).2.2 = none ∧
    (processPDV envEx stEx dvDataEx).2.1.instance_buffer ≠ [] := by
  refine ⟨by decide, by decide⟩

/-- C3 (amended): after a complete command unit has been consumed the
reassembly buffer is empty, but after a terminal data unit has been consumed
the buffer retains the whole reassembled data unit (prior contents plus the
final fragment); it is emptied again only by the next command unit. -/
theorem c3_buffer_invariant (env : Env) (st : SessionState) (dv : PDataValue) :
    (dv.value_type = PDataValueType.command → dv.is_last = true →
      ∀ outs st1, processPDV env st dv = (outs, st1, none) → st1.instance_buffer = []) ∧
    (dv.value_type = PDataValueType.data → dv.is_last = true →
      ∀ outs st1, processPDV env st dv = (outs, st1, none) →
        st1.instance_buffer = st.instance_buffer ++ dv.data) := by
  constructor
  · intro hk hl outs st1 h
    simp only [processPDV, hk, hl] at h
    simp only [reduceCtorEq, and_false, false_and, and_true, and_self, reduceIte] at h
    split at h <;> try simp_all
    split at h <;> try simp_all
    split at h <;> try simp_all
    split at h <;> try simp_all
    split at h <;> try simp_all
    rw [← h.2]
  · intro hk hl outs st1 h
    obtain ⟨fobj, houts, hst⟩ := processPDV_data_success env st dv outs st1 hk hl h
    simp [hst]

/-- Witness for the amended C3: at the concrete scenario the command unit
leaves an empty buffer and the data unit leaves its bytes in the buffer. -/
theorem c3_buffer_invariant_witness :
    stEx.instance_buffer = [] ∧
    stExAfter.instance_buffer = stEx.instance_buffer ++ dvDataEx.data := by
  constructor
  · exact (c3_buffer_invariant envEx initialState dvCmdEx).1 rfl rfl [] stEx (by decide)
  · exact (c3_buffer_invariant envEx stEx dvDataEx).2 rfl rfl outsEx stExAfter (by decide)

/-- C4: a terminal Command-kind PDV is decoded from its own payload alone with
the implicit-little-endian convention — the reassembly buffer is not merged in,
as the result holds for every prior state — and on success the message
identifier, affected class identifier and affected instance identifier of the
decoded command set become the pending request state while the reassembly
buffer is cleared. -/
theorem c4_command_dispatch (env : Env) (st : SessionState) (dv : PDataValue)
    (obj : InMemDicomObject) (cf mid : Nat) (cls inst : String)
    (hk : dv.value_type = PDataValueType.command) (hl : dv.is_last = true)
    (hdec : env.read_dataset_with_ts IMPLICIT_VR_LITTLE_ENDIAN dv.data = some obj)
    (hcf : obj.command_field = some cf) (hmid : obj.message_id = some mid)
    (hcls : obj.affected_sop_class_uid = some cls)
    (hinst : obj.affected_sop_instance_uid = some inst) :
    processPDV env st dv = ([], ⟨[], mid, cls, inst⟩, none) :=
  processPDV_command_success env st dv obj cf mid cls inst hk hl hdec hcf hmid hcls hinst

/-- Witness for C4: the scenario's command PDV, dispatched from the initial
state (even though its payload differs from the buffer), produces the pending
request state of the scenario. -/
theorem c4_command_dispatch_witness :
    processPDV envEx initialState dvCmdEx = ([], stEx, none) :=
  c4_command_dispatch envEx initialState dvCmdEx cmdObjEx 1 7
    "1.2.840.10008.5.1.4.1.1.2" "1.2.3.4.5\x00" rfl rfl (by decide) rfl rfl rfl rfl

/-- C5: an unknown presentation-context identifier, undecodable command bytes,
undecodable accumulated data bytes, and a missing required command element
(command field, message identifier, affected class or instance identifier) all
make the PDV dispatch fatal; and once a P-DATA PDU's dispatch is fatal the loop
ends at that PDU — its result does not depend on the remaining events — and the
error is reported upward as the session's result. -/
theorem c5_fatal_errors :
    (∀ (env : Env) (st : SessionState) (dv : PDataValue),
      dv.value_type = PDataValueType.data → dv.is_last = true →
      env.presentation_contexts.find? (fun pc => pc.id = dv.presentation_context_id) = none →
      (processPDV env st dv).2.2 = some (Fatal.error "missing presentation context")) ∧
    (∀ (env : Env) (st : SessionState) (dv : PDataValue),
      dv.value_type = PDataValueType.command → dv.is_last = true →
      env.read_dataset_with_ts IMPLICIT_VR_LITTLE_ENDIAN dv.data = none →
      (processPDV env st dv).2.2 = some (Fatal.error "failed to read incoming DICOM command")) ∧
    (∀ (env : Env) (st : SessionState) (dv : PDataValue) (pc : PresentationContext),
      dv.value_type = PDataValueType.data → dv.is_last = true →
      env.presentation_contexts.find? (fun q => q.id = dv.presentation_context_id) = some pc →
      env.registry.contains ( PresentationContext.transfer_syntax pc) = true →
      env.read_dataset_with_ts ( PresentationContext.transfer_syntax pc)
        (st.instance_buffer ++ dv.data) = none →
      (processPDV env st dv).2.2 = some (Fatal.error "failed to read DICOM data object")) ∧
    (∀ (env : Env) (st : SessionState) (dv : PDataValue) (obj : InMemDicomObject),
      dv.value_type = PDataValueType.command → dv.is_last = true →
      env.read_dataset_with_ts IMPLICIT_VR_LITTLE_ENDIAN dv.data = some obj →
      (obj.command_field = none ∨ obj.message_id = none ∨
       obj.affected_sop_class_uid = none ∨ obj.affected_sop_instance_uid = none) →
      ∃ m, (processPDV env st dv).2.2 = some (Fatal.error m)) ∧
    (∀ (env : Env) (rls : Bool) (st : SessionState) (dvs : List PDataValue)
       (f : Fatal) (rest rest2 : List RecvEvent),
      (processPDVs env st dvs).2.2 = some f →
      runLoop env rls st (RecvEvent.pdu (Pdu.pData dvs) :: rest) =
        ((processPDVs env st dvs).1, (processPDVs env st dvs).2.1, LoopEnd.fatal f) ∧
      runLoop env rls st (RecvEvent.pdu (Pdu.pData dvs) :: rest) =
        runLoop env rls st (RecvEvent.pdu (Pdu.pData dvs) :: rest2) ∧
      sessionResult (runLoop env rls st (RecvEvent.pdu (Pdu.pData dvs) :: rest)).2.2 =
        Except.error f) := by
  refine ⟨?_, ?_, ?_, ?_, ?_⟩
  · intro env st dv hk hl hfind
    simp [processPDV, hk, hl, hfind]
  · intro env st dv hk hl hdec
    simp [processPDV, hk, hl, hdec]
  · intro env st dv pc hk hl hfind hcont hdec
    have hmem : PresentationContext.transfer_syntax pc ∈ env.registry := by
      simpa using hcont
    simp [processPDV, hk, hl, hfind, hdec, hmem]
  · intro env st dv obj hk hl hdec hmiss
    rcases hcf : obj.command_field with _ | cf
    · exact ⟨"Missing Command Field", by simp [processPDV, hk, hl, hdec, hcf]⟩
    rcases hm : obj.message_id with _ | mid
    · exact ⟨"Missing Message ID", by simp [processPDV, hk, hl, hdec, hcf, hm]⟩
    rcases hc : obj.affected_sop_class_uid with _ | cls
    · exact ⟨"missing Affected SOP Class UID",
        by simp [processPDV, hk, hl, hdec, hcf, hm, hc]⟩
    rcases hi : obj.affected_sop_instance_uid with _ | inst
    · exact ⟨"missing Affected SOP Instance UID",
        by simp [processPDV, hk, hl, hdec, hcf, hm, hc, hi]⟩
    simp_all
  · intro env rls st dvs f rest rest2 hf
    cases dvs with
    | nil => simp [processPDVs] at hf
    | cons d ds =>
      rcases hP : processPDVs env st (d :: ds) with ⟨outs, st1, r⟩
      rw [hP] at hf
      simp only [] at hf
      subst hf
      refine ⟨?_, ?_, ?_⟩ <;> simp [runLoop, hP, sessionResult]

/-- Witness for C5: concrete fatal runs for each listed condition, and the loop
ending fatally at a bad command PDV independently of the remaining events. -/
theorem c5_fatal_errors_witness :
    (processPDV envEx stEx dvNoPc).2.2 = some (Fatal.error "missing presentation context") ∧
    (processPDV envEx stEx dvBadCmd).2.2 =
      some (Fatal.error "failed to read incoming DICOM command") ∧
    (processPDV envEx initialState dvBadData).2.2 =
      some (Fatal.error "failed to read DICOM data object") ∧
    (∃ m, (processPDV envEx initialState dvNoCf).2.2 = some (Fatal.error m)) ∧
    (runLoop envEx true initialState [RecvEvent.pdu (Pdu.pData [dvBadCmd])] =
       ((processPDVs envEx initialState [dvBadCmd]).1,
        (processPDVs envEx initialState [dvBadCmd]).2.1,
        LoopEnd.fatal (Fatal.error "failed to read incoming DICOM command")) ∧
     runLoop envEx true initialState [RecvEvent.pdu (Pdu.pData [dvBadCmd])] =
       runLoop envEx true initialState
         [RecvEvent.pdu (Pdu.pData [dvBadCmd]), RecvEvent.recvError] ∧
     sessionResult
         (runLoop envEx true initialState [RecvEvent.pdu (Pdu.pData [dvBadCmd])]).2.2 =
       Except.error (Fatal.error "failed to read incoming DICOM command")) :=
  ⟨c5_fatal_errors.1 envEx stEx dvNoPc rfl rfl (by decide),
   c5_fatal_errors.2.1 envEx stEx dvBadCmd rfl rfl (by decide),
   c5_fatal_errors.2.2.1 envEx initialState dvBadData ⟨1, tsA⟩ rfl rfl
     (by decide) (by decide) (by decide),
   c5_fatal_errors.2.2.2.1 envEx initialState dvNoCf objNoCf rfl rfl
     (by decide) (Or.inl rfl),
   c5_fatal_errors.2.2.2.2 envEx true initialState [dvBadCmd]
     (Fatal.error "failed to read incoming DICOM command") []
     [RecvEvent.recvError] (by decide)⟩

/-- C6: delivering a data unit as N ordered Data-kind fragments on one
presentation context, all non-terminal except the last, is processed exactly
like delivering the whole unit as a single terminal fragment — same outputs
(hence the same persisted file), same final state, same error if any. -/
theorem c6_fragmentation (env : Env) (st : SessionState) (pcid : Nat)
    (chunks : List Bytes) (h : chunks ≠ []) :
    processPDVs env st (fragmentPdvs pcid chunks) =
      processPDV env st ⟨pcid, PDataValueType.data, true, chunks.flatten⟩ :=
  fragment_processing_eq env pcid chunks st h

/-- Witness for C6: splitting the scenario's data unit into two fragments
gives the same processing result as the single terminal fragment. -/
theorem c6_fragmentation_witness :
    processPDVs envEx stEx (fragmentPdvs 1 [[1], [2]]) =
      processPDV envEx stEx ⟨1, PDataValueType.data, true, [[1], [2]].flatten⟩ :=
  c6_fragmentation envEx stEx 1 [[1], [2]] (by decide)

/-- C7: the loop attempts exactly one release-response send when it ends in
`released` (and none otherwise, however many objects were stored earlier in the
run), and the success of that best-effort send is the only non-fatal failure:
the final state, the loop end, and the session result do not depend on it, and
a released session still returns the normal `Ok` result. -/
theorem c7_release_symmetry (env : Env) (b b2 : Bool) (st : SessionState)
    (evs : List RecvEvent) :
    countReleaseRP (runLoop env b st evs).1 =
      (if (runLoop env b st evs).2.2 = LoopEnd.released then 1 else 0) ∧
    (runLoop env b st evs).2 = (runLoop env b2 st evs).2 ∧
    sessionResult (runLoop env b st evs).2.2 =
      sessionResult (runLoop env b2 st evs).2.2 ∧
    ((runLoop env b st evs).2.2 = LoopEnd.released →
      sessionResult (runLoop env b st evs).2.2 = Except.ok true) := by
  refine ⟨runLoop_count_release env b evs st,
    runLoop_release_ok_irrel env b b2 evs st,
    congrArg (fun q => sessionResult q.2) (runLoop_release_ok_irrel env b b2 evs st),
    fun h => by rw [h]; rfl⟩

/-- Witness for C7: a session consisting of one release request ends released
with the normal `Ok` result. -/
theorem c7_release_symmetry_witness :
    sessionResult
        (runLoop envEx true initialState [RecvEvent.pdu Pdu.releaseRQ]).2.2 =
      Except.ok true :=
  (c7_release_symmetry envEx true false initialState
    [RecvEvent.pdu Pdu.releaseRQ]).2.2.2 (by decide)

/-- C8: a P-DATA PDU containing zero PDVs is a no-op — the run on it followed
by the remaining events equals the run on the remaining events alone, so the
buffer, the pending request state and the outcome are unchanged and no reply is
produced for it. -/
theorem c8_empty_pdata (env : Env) (b : Bool) (st : SessionState) (rest : List RecvEvent) :
    runLoop env b st (RecvEvent.pdu (Pdu.pData []) :: rest) = runLoop env b st rest := by
  simp [runLoop]

/-- C9: a terminal Data-kind PDV that completes a data unit while the pending
request state is still initial is not rejected: on success the object is filed
under the initial (empty) pending instance identifier — the filename reduces to
".dcm" — and the response echoes the initial message identifier 1 and empty
affected class/instance identifiers. -/
theorem c9_no_command_precondition (env : Env) (dv : PDataValue)
    (outs : List Output) (st1 : SessionState)
    (hk : dv.value_type = PDataValueType.data) (hl : dv.is_last = true)
    (h : processPDV env initialState dv = (outs, st1, none)) :
    (∃ fobj, outs =
      [Output.storeFile
         (env.out_dir ++ "/" ++ (trimEndNul initialState.sop_instance_uid ++ ".dcm")) fobj,
       Output.sendResponse dv.presentation_context_id (create_cstore_response 1 "" "")]) ∧
    trimEndNul initialState.sop_instance_uid ++ ".dcm" = ".dcm" := by
  obtain ⟨fobj, houts, hst⟩ := processPDV_data_success env initialState dv outs st1 hk hl h
  exact ⟨⟨fobj, houts⟩, rfl⟩

/-- Witness for C9: the scenario's data PDV processed from the initial state is
stored as "out/.dcm" and acknowledged with message identifier 1 and empty
identifiers. -/
theorem c9_no_command_precondition_witness :
    (∃ fobj, outs9 =
      [Output.storeFile
         (envEx.out_dir ++ "/" ++ (trimEndNul initialState.sop_instance_uid ++ ".dcm")) fobj,
       Output.sendResponse 1 (create_cstore_response 1 "" "")]) ∧
    trimEndNul initialState.sop_instance_uid ++ ".dcm" = ".dcm" :=
  c9_no_command_precondition envEx dvDataEx outs9 st9 rfl rfl (by decide)

/-- C10: if every negotiated presentation context's transfer syntax is present
in the registry, the unwrapped registry lookup of the terminal-Data branch can
never reach its panic outcome — every fatal result is a propagated error; and
without that precondition there is a concrete environment, state and PDV on
which processing panics instead of returning an error. -/
theorem c10_registry_unwrap :
    (∀ (env : Env) (st : SessionState) (dv : PDataValue),
      (∀ pc ∈ env.presentation_contexts,
        env.registry.contains ( PresentationContext.transfer_syntax pc) = true) →
      ∀ f, (processPDV env st dv).2.2 = some f → Fatal.isPanic f = false) ∧
    (∃ (env : Env) (st : SessionState) (dv : PDataValue) (m : String),
      (processPDV env st dv).2.2 = some (Fatal.panicked m)) := by
  constructor
  · intro env st dv hreg f h
    have hreg2 : ∀ pc, List.find? (fun q => decide (q.id = dv.presentation_context_id))
        env.presentation_contexts = some pc →
        env.registry.contains ( PresentationContext.transfer_syntax pc) = true :=
      fun pc hf => hreg pc (List.mem_of_find?_eq_some hf)
    simp only [processPDV] at h
    repeat' split at h
    all_goals try simp_all [Fatal.isPanic]
    all_goals (subst h; rfl)
  · refine ⟨⟨[⟨1, "X"⟩], [], fun _ _ => none, "out", fun _ => true, true⟩,
      initialState, ⟨1, PDataValueType.data, true, []⟩,
      "TransferSyntaxRegistry.get returned None", by decide⟩

/-- Witness for C10: in the example environment, whose negotiated transfer
syntax is registered, a fatal outcome is an error and not a panic. -/
theorem c10_registry_unwrap_witness :
    Fatal.isPanic (Fatal.error "failed to read incoming DICOM command") = false :=
  c10_registry_unwrap.1 envEx initialState dvBadCmd (by decide)
    (Fatal.error "failed to read incoming DICOM command") (by decide)

end StoreAsync
